import Mathlib

/-!
Verification development for the Beanie Dash endless-runner core
(src/js/game.js).  The simulation is shallowly embedded: JS numbers are
modelled as rationals, the per-frame mutation of the single game object
becomes explicit state passing, and the host environment's impure inputs
(performance.now deltas, Math.random draws, Math.sin) are passed in as
explicit parameters.  Rendering, particles, trail, screen shake, audio and
DOM access are side effects the simulation never reads back; they are
omitted.  The player's `onPlatform` object reference is modelled as an
optional numeric id (each generated obstacle gets a fresh id), with
reference identity becoming id equality.
-/

set_option maxRecDepth 100000

namespace BeanieDash

/-- Game physics constants from the BeanieGame constructor. -/
def gravity : ℚ := 0.8

def jumpPower : ℚ := -14

def maxFallSpeed : ℚ := 20

def maxSpeed : ℚ := 12

def speedIncrement : ℚ := 0.0004

def minObstacleSpacing : ℚ := 250

/-- The obstacle type tags used by generateObstacle's switch. -/
inductive ObstacleType where
  | spike
  | jump_platform
  | block
  | saw
  | platform
  | poop
deriving DecidableEq

/-- One obstacle record.  The source keeps a single mutable record whose
optional fields depend on the type tag; absent fields are modelled with
Option (collision box overrides) or defaulted to 0 (animation state), and
isJumpable defaults to false exactly as an undefined JS field is falsy.
The drawing-only fields (color, the spike's stored groundY) are omitted.
The id field replaces JS object identity. -/
structure Obstacle where
  id : ℕ
  x : ℚ
  y : ℚ
  width : ℚ
  height : ℚ
  otype : ObstacleType
  passed : Bool
  isJumpable : Bool
  collisionWidth : Option ℚ
  collisionOffset : Option ℚ
  moveY : ℚ
  moveDir : ℚ
  rotation : ℚ
  bounce : ℚ
deriving DecidableEq

/-- Player state (cosmetic rotation and trail omitted). -/
structure Player where
  x : ℚ
  y : ℚ
  size : ℚ
  velocity : ℚ
  jumping : Bool
  grounded : Bool
  onPlatform : Option ℕ
deriving DecidableEq

/-- The top-level game states. -/
inductive GState where
  | menu
  | playing
  | gameover
deriving DecidableEq

/-- The simulation state owned by the single game instance. -/
structure Game where
  state : GState
  score : ℤ
  deaths : ℕ
  bestScore : ℤ
  player : Player
  groundY : ℚ
  canvasWidth : ℚ
  speed : ℚ
  obstacles : List Obstacle
  obstacleSpacing : ℚ
  lastObstacleX : ℚ
  difficultyLevel : ℤ
  distanceTraveled : ℚ
  nextId : ℕ
deriving DecidableEq

/-- The Math.random draws one generateObstacle call consumes, passed in as
data: an arbitrary index for the type pick and the height pick (used modulo
the menu length, as floor(random * len) is), and two unit-interval samples
for the width and oscillation-center randomisation. -/
structure Rand where
  typeIdx : ℕ
  heightIdx : ℕ
  widthFrac : ℚ
  oscFrac : ℚ

/-- The shrunk player hitbox computed at the top of checkCollisions. -/
structure Box where
  x : ℚ
  y : ℚ
  width : ℚ
  height : ℚ

def playerBox (p : Player) : Box :=
  { x := p.x - p.size / 2 + 5
    y := p.y + 5
    width := p.size - 10
    height := p.size - 10 }

/-- isColliding(box1, box2) where box2 is the obstacle: the obstacle's
effective rectangle uses its custom collision width/offset when defined. -/
def isColliding (b1 : Box) (o : Obstacle) : Bool :=
  let obstacleX := o.x + o.collisionOffset.getD 0
  let obstacleWidth := o.collisionWidth.getD o.width
  decide (b1.x < obstacleX + obstacleWidth) &&
  decide (obstacleX < b1.x + b1.width) &&
  decide (b1.y < o.y + o.height) &&
  decide (o.y < b1.y + b1.height)

/-- Gravity application and position integration from the top of
updatePlayer: while airborne, velocity gains gravity and is clamped at the
terminal fall speed; the new velocity is then added to y.  Note that the
source applies these as fixed per-invocation amounts: deltaTime is not
consulted. -/
def integrate (g : Game) : Player :=
  let p0 := g.player
  let v1 :=
    if !p0.grounded then
      (if maxFallSpeed < p0.velocity + gravity then maxFallSpeed
       else p0.velocity + gravity)
    else p0.velocity
  { p0 with velocity := v1, y := p0.y + v1 }

/-- The landing test applied to one isJumpable obstacle inside
updatePlayer's platform loop (p is the already-integrated player). -/
def landingCond (p : Player) (o : Obstacle) : Bool :=
  let playerBottom := p.y + p.size
  let playerPrevBottom := p.y + p.size - p.velocity
  let platformTop := o.y
  let platformBottom := o.y + o.height
  let horizontallyAligned :=
    decide (o.x < p.x + p.size / 2) && decide (p.x - p.size / 2 < o.x + o.width)
  let verticallyAligned :=
    (decide (platformTop - 5 ≤ playerBottom) &&
     decide (playerBottom ≤ platformBottom + 25)) ||
    (decide (playerPrevBottom ≤ platformTop) && decide (platformTop ≤ playerBottom))
  horizontallyAligned && verticallyAligned && decide (0 ≤ p.velocity)

/-- The platform loop: first obstacle (in array order) that is isJumpable
and passes the landing test; the loop only runs while the player is falling
or stationary. -/
def findLanding (g : Game) (p1 : Player) : Option Obstacle :=
  if 0 ≤ p1.velocity then
    g.obstacles.find? (fun o => o.isJumpable && landingCond p1 o)
  else none

/-- The moved-off-the-platform re-check (the final else-if branch of
updatePlayer's resolution).  The source reads fields of the retained object
reference; a reference to an obstacle no longer in the active set has been
frozen at off-screen coordinates (x ≤ -100) for which the clearing test
always fires, so the failed lookup is modelled as that clearing. -/
def leaveCheck (g : Game) (p1 : Player) : Player :=
  if p1.grounded then
    match p1.onPlatform with
    | some pid =>
      match g.obstacles.find? (fun o => o.id == pid) with
      | some platform =>
        if p1.x + p1.size / 2 < platform.x - g.speed ∨
           platform.x + platform.width < p1.x - p1.size / 2 then
          { p1 with grounded := false, onPlatform := none }
        else p1
      | none => { p1 with grounded := false, onPlatform := none }
    | none => p1
  else p1

/-- updatePlayer's effect on the player record: integrate, try the platform
landing (snap to the platform top, zero velocity, ground, record the
back-reference), else the flat ground (same resets, reference cleared),
else the platform-leave re-check. -/
def stepPlayer (g : Game) : Player :=
  match findLanding g (integrate g) with
  | some o =>
    { integrate g with
        y := o.y - (integrate g).size, velocity := 0, grounded := true,
        jumping := false, onPlatform := some o.id }
  | none =>
    if g.groundY - (integrate g).size ≤ (integrate g).y then
      { integrate g with
          y := g.groundY - (integrate g).size, velocity := 0, grounded := true,
          jumping := false, onPlatform := none }
    else leaveCheck g (integrate g)

/-- updatePlayer(deltaTime): only the player record changes.  The deltaTime
argument is accepted but, as in the source, never used by the physics. -/
def updatePlayer (dt : ℚ) (g : Game) : Game :=
  { g with player := stepPlayer g }

/-- Per-obstacle movement and animation from updateObstacles: every
obstacle shifts left by the world speed (a fixed per-invocation amount,
deltaTime unused); moving platforms oscillate vertically, saws spin, the
poop prop bobs with the host's Math.sin; the passed flag latches once the
right edge is behind the player. -/
def moveObstacle (speed groundY playerX : ℚ) (jsSin : ℚ → ℚ) (o : Obstacle) :
    Obstacle :=
  let o1 := { o with x := o.x - speed }
  let o2 :=
    match o1.otype with
    | .saw => { o1 with rotation := o1.rotation + 0.1 }
    | .platform =>
      let y1 := o1.y + o1.moveDir * 2
      let dir1 :=
        if o1.moveY + 30 < y1 ∨ y1 < o1.moveY - 30 then -o1.moveDir else o1.moveDir
      { o1 with y := y1, moveDir := dir1 }
    | .poop =>
      let b1 := o1.bounce + 0.1
      { o1 with bounce := b1, y := groundY - 35 + jsSin b1 * 5 }
    | _ => o1
  if !o2.passed && decide (o2.x + o2.width < playerX) then
    { o2 with passed := true }
  else o2

/-- updateObstacles(deltaTime): move/animate every obstacle, then drop the
ones that have scrolled past x = -100. -/
def updateObstacles (dt : ℚ) (jsSin : ℚ → ℚ) (g : Game) : Game :=
  { g with
      obstacles :=
        (g.obstacles.map (moveObstacle g.speed g.groundY g.player.x jsSin)).filter
          (fun o => decide (-100 < o.x)) }

/-- gameOver(): transition to the gameover state, count the death, and
raise the persisted best score when beaten (screen shake, DOM and audio
side effects omitted). -/
def gameOver (g : Game) : Game :=
  { g with
      state := .gameover
      deaths := g.deaths + 1
      bestScore := if g.bestScore < g.score then g.score else g.bestScore }

/-- The classification applied to a single obstacle inside checkCollisions'
loop: true means this obstacle triggers gameOver at this iteration. -/
def lethalHit (p : Player) (box : Box) (o : Obstacle) : Bool :=
  if o.isJumpable then
    if p.onPlatform = some o.id then false
    else if isColliding box o then
      !(decide (p.y + p.size ≤ o.y + 15) && decide (0 ≤ p.velocity))
    else false
  else if o.otype = .platform then
    if p.onPlatform = some o.id then false
    else isColliding box o
  else isColliding box o

/-- checkCollisions(): iterate the active obstacles, calling gameOver and
breaking at the first lethal classification.  Because the per-obstacle test
is read-only, the loop-with-break is exactly a short-circuit any. -/
def checkCollisions (g : Game) : Game :=
  if g.obstacles.any (lethalHit g.player (playerBox g.player)) then gameOver g
  else g

/-- The obstacle types available at a difficulty level, in the push order of
generateObstacle. -/
def availableTypes (lvl : ℤ) : List ObstacleType :=
  [.spike, .jump_platform] ++
  (if 3 < lvl then [.block] else []) ++
  (if 6 < lvl then [.platform] else []) ++
  (if 8 < lvl then [.saw] else []) ++
  (if 10 < lvl then [.poop] else [])

/-- generateObstacle(x): pick a type uniformly from the unlocked set, build
the type-specific geometry, append it and advance lastObstacleX.  The JS
default `x || last + spacing` is modelled with Option (the in-loop call
passes no argument). -/
def generateObstacle (xArg : Option ℚ) (rnd : Rand) (g : Game) : Game :=
  let types := availableTypes g.difficultyLevel
  let t := types.getD (rnd.typeIdx % types.length) .spike
  let x := xArg.getD (g.lastObstacleX + g.obstacleSpacing)
  let base : Obstacle :=
    { id := g.nextId, x := x, y := 0, width := 0, height := 0, otype := t,
      passed := false, isJumpable := false, collisionWidth := none,
      collisionOffset := none, moveY := 0, moveDir := 0, rotation := 0,
      bounce := 0 }
  let ob :=
    match t with
    | .spike =>
      { base with
          y := g.groundY - 40, width := 30, height := 40,
          collisionWidth := some 20, collisionOffset := some 5 }
    | .jump_platform =>
      let heights : List ℚ := [60, 80, 100]
      let h := heights.getD (rnd.heightIdx % 3) 60
      let w :=
        if g.difficultyLevel ≤ 2 then 100 + rnd.widthFrac * 50
        else 80 + rnd.widthFrac * 40
      { base with y := g.groundY - h, width := w, height := 15, isJumpable := true }
    | .block => { base with y := g.groundY - 40, width := 40, height := 40 }
    | .saw => { base with y := g.groundY - 30, width := 50, height := 50 }
    | .platform =>
      let y := g.groundY - 80 - rnd.oscFrac * 60
      { base with y := y, width := 60, height := 10, moveY := y, moveDir := 1 }
    | .poop => { base with y := g.groundY - 35, width := 35, height := 35 }
  { g with
      obstacles := g.obstacles ++ [ob]
      lastObstacleX := ob.x
      nextId := g.nextId + 1 }

/-- generateSimpleSpike(x): the deterministic tutorial spike. -/
def generateSimpleSpike (xArg : Option ℚ) (g : Game) : Game :=
  let x := xArg.getD (g.lastObstacleX + g.obstacleSpacing)
  let ob : Obstacle :=
    { id := g.nextId, x := x, y := g.groundY - 40, width := 30, height := 40,
      otype := .spike, passed := false, isJumpable := false,
      collisionWidth := some 20, collisionOffset := some 5, moveY := 0,
      moveDir := 0, rotation := 0, bounce := 0 }
  { g with
      obstacles := g.obstacles ++ [ob]
      lastObstacleX := ob.x
      nextId := g.nextId + 1 }

/-- generateEasyPlatform(x): the deterministic tutorial platform. -/
def generateEasyPlatform (xArg : Option ℚ) (g : Game) : Game :=
  let x := xArg.getD (g.lastObstacleX + g.obstacleSpacing)
  let ob : Obstacle :=
    { id := g.nextId, x := x, y := g.groundY - 80, width := 120, height := 15,
      otype := .jump_platform, passed := false, isJumpable := true,
      collisionWidth := none, collisionOffset := none, moveY := 0,
      moveDir := 0, rotation := 0, bounce := 0 }
  { g with
      obstacles := g.obstacles ++ [ob]
      lastObstacleX := ob.x
      nextId := g.nextId + 1 }

/-- generateInitialObstacles(): the fixed spike/platform/spike/platform
opening sequence (each call passes lastObstacleX + spacing explicitly). -/
def generateInitialObstacles (g : Game) : Game :=
  let g1 := generateSimpleSpike (some (g.lastObstacleX + g.obstacleSpacing)) g
  let g2 := generateEasyPlatform (some (g1.lastObstacleX + g1.obstacleSpacing)) g1
  let g3 := generateSimpleSpike (some (g2.lastObstacleX + g2.obstacleSpacing)) g2
  generateEasyPlatform (some (g3.lastObstacleX + g3.obstacleSpacing)) g3

/-- startGame(): enter playing, reset the run-scoped quantities, reposition
the player, and seed the opening sequence.  As in the source, grounded,
jumping, onPlatform, deaths and bestScore are not touched here. -/
def startGame (g : Game) : Game :=
  let g1 :=
    { g with
        state := .playing
        score := 0
        distanceTraveled := 0
        speed := 3.5
        obstacleSpacing := 500
        difficultyLevel := 0
        obstacles := []
        lastObstacleX := 800
        player := { g.player with y := g.groundY - g.player.size, velocity := 0 } }
  generateInitialObstacles g1

/-- handleJump(): start from menu, restart from gameover, jump only while
playing and grounded, otherwise a silent no-op. -/
def handleJump (g : Game) : Game :=
  if g.state = .menu then startGame g
  else if g.state = .gameover then startGame g
  else if g.state = .playing ∧ g.player.grounded then
    { g with
        player :=
          { g.player with velocity := jumpPower, jumping := true, grounded := false } }
  else g

/-- The speed / distance / score / difficulty portion at the top of
update(deltaTime): speed grows by speedIncrement·dt while under the cap,
distance accumulates speed·dt·0.01, score is its floor, and a difficulty
level increase shrinks the spacing by 5 with a floor at the minimum. -/
def updateSpeedAndScore (dt : ℚ) (g : Game) : Game :=
  let speed1 := if g.speed < maxSpeed then g.speed + speedIncrement * dt else g.speed
  let dist1 := g.distanceTraveled + speed1 * dt * (1 / 100)
  let score1 : ℤ := ⌊dist1⌋
  let newLevel : ℤ := ⌊(score1 : ℚ) / 40⌋
  if g.difficultyLevel < newLevel then
    let spacing1 :=
      if minObstacleSpacing < g.obstacleSpacing then
        max minObstacleSpacing (g.obstacleSpacing - 5)
      else g.obstacleSpacing
    { g with
        speed := speed1, distanceTraveled := dist1, score := score1,
        difficultyLevel := newLevel, obstacleSpacing := spacing1 }
  else
    { g with speed := speed1, distanceTraveled := dist1, score := score1 }

/-- update(deltaTime): one simulation step.  Early-out unless playing, then
difficulty/score, player physics, obstacle movement, collision resolution,
and spawning once the horizon approaches.  Particles, screen shake, beat
glow and UI writes are presentation-only and omitted. -/
def update (dt : ℚ) (jsSin : ℚ → ℚ) (rnd : Rand) (g : Game) : Game :=
  if g.state ≠ .playing then g
  else
    let g1 := updateSpeedAndScore dt g
    let g2 := updatePlayer dt g1
    let g3 := updateObstacles dt jsSin g2
    let g4 := checkCollisions g3
    if g4.lastObstacleX - g4.distanceTraveled * 100 < g4.canvasWidth then
      generateObstacle none rnd g4
    else g4

/-! ### Specification-side predicates -/

/-- Consistency of the player record on entry to a tick: a grounded player
has zero vertical velocity and sits either exactly on the ground or, with a
platform back-reference, exactly on the top surface of any active obstacle
that reference names. -/
def playerConsistent (g : Game) : Prop :=
  g.player.grounded = true →
    g.player.velocity = 0 ∧
    (g.player.y = g.groundY - g.player.size ∨
      (g.player.onPlatform ≠ none ∧
        ∀ o ∈ g.obstacles,
          g.player.onPlatform = some o.id → g.player.y = o.y - g.player.size))

instance (g : Game) : Decidable (playerConsistent g) := by
  unfold playerConsistent
  infer_instance

/-- The horizontal-overlap condition updatePlayer's platform-leave check
keeps a grounded player attached under (the negation of its clearing test,
which pads the platform's left edge by one world-speed step). -/
def overlapWithMargin (p : Player) (speed : ℚ) (o : Obstacle) : Prop :=
  ¬(p.x + p.size / 2 < o.x - speed) ∧ ¬(o.x + o.width < p.x - p.size / 2)

/-! ### Concrete states used by counterexamples and witnesses -/

/-- A stand-in for the host's Math.sin (only the poop prop's cosmetic bob
reads it). -/
def sinZero : ℚ → ℚ := fun _ => 0

def rndZero : Rand := { typeIdx := 0, heightIdx := 0, widthFrac := 0, oscFrac := 0 }

/-- The Math.random draws that make generateObstacle pick the fourth
unlocked type (the moving platform, once the difficulty unlocks it). -/
def rndPlat : Rand := { typeIdx := 3, heightIdx := 0, widthFrac := 0, oscFrac := 0 }

/-- An airborne player at the fixed x = 100 with the constructor's size. -/
def basePlayer : Player :=
  { x := 100, y := 440, size := 30, velocity := 0, jumping := false,
    grounded := false, onPlatform := none }

/-- A mid-run playing state with the constructor's tunables, ground at
y = 500, and the last obstacle far enough right that no spawn triggers. -/
def baseGame : Game :=
  { state := .playing, score := 0, deaths := 0, bestScore := 0,
    player := basePlayer, groundY := 500, canvasWidth := 800, speed := 3.5,
    obstacles := [], obstacleSpacing := 500, lastObstacleX := 1000000,
    difficultyLevel := 0, distanceTraveled := 0, nextId := 1 }

/-- A static jump platform with its top surface at y = 420. -/
def platC1 : Obstacle :=
  { id := 0, x := 60, y := 420, width := 120, height := 15,
    otype := .jump_platform, passed := false, isJumpable := true,
    collisionWidth := none, collisionOffset := none, moveY := 0, moveDir := 0,
    rotation := 0, bounce := 0 }

/-- A stationary player whose bottom edge (440 after integration) sits 20
below the platform top, deeper than the landing tolerance, with no
top-crossing this tick. -/
def gC1 : Game :=
  { baseGame with
      obstacles := [platC1]
      player := { basePlayer with y := 409.2 } }

/-- A moving platform (type tag platform) as generateObstacle builds it:
note isJumpable is never set for this type. -/
def platC2 : Obstacle :=
  { id := 0, x := 80, y := 420, width := 60, height := 10,
    otype := .platform, passed := false, isJumpable := false,
    collisionWidth := none, collisionOffset := none, moveY := 420, moveDir := 1,
    rotation := 0, bounce := 0 }

/-- A player falling onto the moving platform's top: after integration the
bottom edge crosses from above the top surface to 8 below it. -/
def gC2 : Game :=
  { baseGame with
      obstacles := [platC2]
      player := { basePlayer with y := 388, velocity := 9.2 } }

/-- A state whose difficulty level has unlocked the moving-platform type. -/
def gGen : Game := { baseGame with difficultyLevel := 7 }

/-- A jump platform whose right edge is barely ahead of the player. -/
def platC5 : Obstacle :=
  { id := 0, x := -30, y := 420, width := 120, height := 15,
    otype := .jump_platform, passed := false, isJumpable := true,
    collisionWidth := none, collisionOffset := none, moveY := 0, moveDir := 0,
    rotation := 0, bounce := 0 }

/-- A player standing on that platform (back-reference recorded). -/
def gC5 : Game :=
  { baseGame with
      obstacles := [platC5]
      player :=
        { basePlayer with y := 390, grounded := true, onPlatform := some 0 } }

/-- Two ticks after jumping off gC5's platform. -/
def gC5b : Game := update 0 sinZero rndZero (update 0 sinZero rndZero (handleJump gC5))

/-- A grounded run whose speed is just below the cap. -/
def gC8 : Game :=
  { baseGame with
      speed := 11.9
      player := { basePlayer with y := 470, grounded := true } }

/-- A ground spike far ahead of the player. -/
def spikeC4 : Obstacle :=
  { id := 0, x := 400, y := 460, width := 30, height := 40,
    otype := .spike, passed := false, isJumpable := false,
    collisionWidth := some 20, collisionOffset := some 5, moveY := 0,
    moveDir := 0, rotation := 0, bounce := 0 }

/-- A high airborne player used to compare steps at different deltas. -/
def gC4 : Game :=
  { baseGame with
      obstacles := [spikeC4]
      player := { basePlayer with y := 100 } }

/-- A ground spike directly under the player. -/
def spikeC7 : Obstacle :=
  { id := 0, x := 90, y := 460, width := 30, height := 40,
    otype := .spike, passed := false, isJumpable := false,
    collisionWidth := some 20, collisionOffset := some 5, moveY := 0,
    moveDir := 0, rotation := 0, bounce := 0 }

/-- A grounded player overlapping that spike. -/
def gC7 : Game :=
  { baseGame with
      obstacles := [spikeC7]
      player := { basePlayer with y := 470, grounded := true } }

/-! ### Projection and decomposition lemmas -/

theorem updatePlayer_player (dt : ℚ) (g : Game) :
    (updatePlayer dt g).player = stepPlayer g := rfl

theorem updatePlayer_score (dt : ℚ) (g : Game) :
    (updatePlayer dt g).score = g.score := rfl

theorem updatePlayer_deaths (dt : ℚ) (g : Game) :
    (updatePlayer dt g).deaths = g.deaths := rfl

theorem updatePlayer_speed (dt : ℚ) (g : Game) :
    (updatePlayer dt g).speed = g.speed := rfl

theorem updatePlayer_distanceTraveled (dt : ℚ) (g : Game) :
    (updatePlayer dt g).distanceTraveled = g.distanceTraveled := rfl

theorem updatePlayer_difficultyLevel (dt : ℚ) (g : Game) :
    (updatePlayer dt g).difficultyLevel = g.difficultyLevel := rfl

theorem updatePlayer_obstacleSpacing (dt : ℚ) (g : Game) :
    (updatePlayer dt g).obstacleSpacing = g.obstacleSpacing := rfl

theorem updatePlayer_obstacles (dt : ℚ) (g : Game) :
    (updatePlayer dt g).obstacles = g.obstacles := rfl

theorem updateObstacles_score (dt : ℚ) (jsSin : ℚ → ℚ) (g : Game) :
    (updateObstacles dt jsSin g).score = g.score := rfl

theorem updateObstacles_deaths (dt : ℚ) (jsSin : ℚ → ℚ) (g : Game) :
    (updateObstacles dt jsSin g).deaths = g.deaths := rfl

theorem updateObstacles_speed (dt : ℚ) (jsSin : ℚ → ℚ) (g : Game) :
    (updateObstacles dt jsSin g).speed = g.speed := rfl

theorem updateObstacles_difficultyLevel (dt : ℚ) (jsSin : ℚ → ℚ) (g : Game) :
    (updateObstacles dt jsSin g).difficultyLevel = g.difficultyLevel := rfl

theorem updateObstacles_obstacleSpacing (dt : ℚ) (jsSin : ℚ → ℚ) (g : Game) :
    (updateObstacles dt jsSin g).obstacleSpacing = g.obstacleSpacing := rfl

theorem checkCollisions_score (g : Game) :
    (checkCollisions g).score = g.score := by
  unfold checkCollisions gameOver; split <;> rfl

theorem checkCollisions_speed (g : Game) :
    (checkCollisions g).speed = g.speed := by
  unfold checkCollisions gameOver; split <;> rfl

theorem checkCollisions_difficultyLevel (g : Game) :
    (checkCollisions g).difficultyLevel = g.difficultyLevel := by
  unfold checkCollisions gameOver; split <;> rfl

theorem checkCollisions_obstacleSpacing (g : Game) :
    (checkCollisions g).obstacleSpacing = g.obstacleSpacing := by
  unfold checkCollisions gameOver; split <;> rfl

theorem checkCollisions_deaths_le (g : Game) :
    (checkCollisions g).deaths ≤ g.deaths + 1 := by
  unfold checkCollisions gameOver; split
  · exact Nat.le_refl _
  · exact Nat.le_succ _

theorem generateObstacle_score (xArg : Option ℚ) (rnd : Rand) (g : Game) :
    (generateObstacle xArg rnd g).score = g.score := rfl

theorem generateObstacle_deaths (xArg : Option ℚ) (rnd : Rand) (g : Game) :
    (generateObstacle xArg rnd g).deaths = g.deaths := rfl

theorem generateObstacle_speed (xArg : Option ℚ) (rnd : Rand) (g : Game) :
    (generateObstacle xArg rnd g).speed = g.speed := rfl

theorem generateObstacle_difficultyLevel (xArg : Option ℚ) (rnd : Rand) (g : Game) :
    (generateObstacle xArg rnd g).difficultyLevel = g.difficultyLevel := rfl

theorem generateObstacle_obstacleSpacing (xArg : Option ℚ) (rnd : Rand) (g : Game) :
    (generateObstacle xArg rnd g).obstacleSpacing = g.obstacleSpacing := rfl

theorem updateSpeedAndScore_deaths (dt : ℚ) (g : Game) :
    (updateSpeedAndScore dt g).deaths = g.deaths := by
  unfold updateSpeedAndScore
  dsimp only
  repeat' split
  all_goals rfl

/-- While playing, a step is the four phases followed by the conditional
spawn. -/
theorem update_eq_phases (dt : ℚ) (jsSin : ℚ → ℚ) (rnd : Rand) (g : Game)
    (h : g.state = .playing) :
    update dt jsSin rnd g =
      (if (checkCollisions (updateObstacles dt jsSin (updatePlayer dt
              (updateSpeedAndScore dt g)))).lastObstacleX -
          (checkCollisions (updateObstacles dt jsSin (updatePlayer dt
              (updateSpeedAndScore dt g)))).distanceTraveled * 100 <
          (checkCollisions (updateObstacles dt jsSin (updatePlayer dt
              (updateSpeedAndScore dt g)))).canvasWidth then
        generateObstacle none rnd (checkCollisions (updateObstacles dt jsSin
          (updatePlayer dt (updateSpeedAndScore dt g))))
      else
        checkCollisions (updateObstacles dt jsSin (updatePlayer dt
          (updateSpeedAndScore dt g)))) := by
  unfold update
  simp [h]

theorem update_score_eq (dt : ℚ) (jsSin : ℚ → ℚ) (rnd : Rand) (g : Game)
    (h : g.state = .playing) :
    (update dt jsSin rnd g).score = (updateSpeedAndScore dt g).score := by
  rw [update_eq_phases dt jsSin rnd g h]
  split <;>
    simp [generateObstacle_score, checkCollisions_score, updateObstacles_score,
      updatePlayer_score]

theorem update_difficultyLevel_eq (dt : ℚ) (jsSin : ℚ → ℚ) (rnd : Rand) (g : Game)
    (h : g.state = .playing) :
    (update dt jsSin rnd g).difficultyLevel =
      (updateSpeedAndScore dt g).difficultyLevel := by
  rw [update_eq_phases dt jsSin rnd g h]
  split <;>
    simp [generateObstacle_difficultyLevel, checkCollisions_difficultyLevel,
      updateObstacles_difficultyLevel, updatePlayer_difficultyLevel]

theorem update_obstacleSpacing_eq (dt : ℚ) (jsSin : ℚ → ℚ) (rnd : Rand) (g : Game)
    (h : g.state = .playing) :
    (update dt jsSin rnd g).obstacleSpacing =
      (updateSpeedAndScore dt g).obstacleSpacing := by
  rw [update_eq_phases dt jsSin rnd g h]
  split <;>
    simp [generateObstacle_obstacleSpacing, checkCollisions_obstacleSpacing,
      updateObstacles_obstacleSpacing, updatePlayer_obstacleSpacing]

theorem update_speed_eq (dt : ℚ) (jsSin : ℚ → ℚ) (rnd : Rand) (g : Game)
    (h : g.state = .playing) :
    (update dt jsSin rnd g).speed = (updateSpeedAndScore dt g).speed := by
  rw [update_eq_phases dt jsSin rnd g h]
  split <;>
    simp [generateObstacle_speed, checkCollisions_speed, updateObstacles_speed,
      updatePlayer_speed]

theorem update_deaths_le (dt : ℚ) (jsSin : ℚ → ℚ) (rnd : Rand) (g : Game) :
    (update dt jsSin rnd g).deaths ≤ g.deaths + 1 := by
  by_cases h : g.state = .playing
  · rw [update_eq_phases dt jsSin rnd g h]
    have hc := checkCollisions_deaths_le
      (updateObstacles dt jsSin (updatePlayer dt (updateSpeedAndScore dt g)))
    rw [updateObstacles_deaths, updatePlayer_deaths, updateSpeedAndScore_deaths] at hc
    split
    · rw [generateObstacle_deaths]; exact hc
    · exact hc
  · unfold update
    simp [h]

/-- Membership in a singleton-or-empty conditional list. -/
theorem mem_ite_singleton {α : Type} {c : Prop} [Decidable c] {a x : α} :
    (x ∈ if c then [a] else []) ↔ c ∧ x = a := by
  split <;> rename_i hc <;> simp [hc]

theorem integrate_x (g : Game) : (integrate g).x = g.player.x := rfl

theorem integrate_size (g : Game) : (integrate g).size = g.player.size := rfl

theorem integrate_grounded (g : Game) :
    (integrate g).grounded = g.player.grounded := rfl

theorem integrate_onPlatform (g : Game) :
    (integrate g).onPlatform = g.player.onPlatform := rfl

theorem integrate_velocity_of_grounded (g : Game) (h : g.player.grounded = true) :
    (integrate g).velocity = g.player.velocity := by
  unfold integrate
  simp [h]

theorem integrate_y (g : Game) :
    (integrate g).y = g.player.y + (integrate g).velocity := rfl

theorem findLanding_mem {g : Game} {p : Player} {o : Obstacle}
    (h : findLanding g p = some o) : o ∈ g.obstacles := by
  unfold findLanding at h
  split at h
  · exact List.mem_of_find?_eq_some h
  · exact absurd h (by simp)

theorem findLanding_cond {g : Game} {p : Player} {o : Obstacle}
    (h : findLanding g p = some o) :
    o.isJumpable = true ∧ landingCond p o = true ∧ 0 ≤ p.velocity := by
  unfold findLanding at h
  split at h
  · have hp := List.find?_some h
    rw [Bool.and_eq_true] at hp
    rename_i hv
    exact ⟨hp.1, hp.2, hv⟩
  · exact absurd h (by simp)

theorem availableTypes_mono (l1 l2 : ℤ) (h : l1 ≤ l2) :
    availableTypes l1 ⊆ availableTypes l2 := by
  intro x hx
  unfold availableTypes at hx ⊢
  simp only [List.mem_append, mem_ite_singleton] at hx ⊢
  rcases hx with (((hx | ⟨hc, hx⟩) | ⟨hc, hx⟩) | ⟨hc, hx⟩) | ⟨hc, hx⟩
  · exact Or.inl (Or.inl (Or.inl (Or.inl hx)))
  · exact Or.inl (Or.inl (Or.inl (Or.inr ⟨by omega, hx⟩)))
  · exact Or.inl (Or.inl (Or.inr ⟨by omega, hx⟩))
  · exact Or.inl (Or.inr ⟨by omega, hx⟩)
  · exact Or.inr ⟨by omega, hx⟩

theorem uss_score_mono (dt : ℚ) (g : Game) (hdt : 0 ≤ dt) (hsp : 0 ≤ g.speed)
    (hscore : g.score = ⌊g.distanceTraveled⌋) :
    g.score ≤ (updateSpeedAndScore dt g).score := by
  have hs1 : 0 ≤ (if g.speed < maxSpeed then g.speed + speedIncrement * dt
      else g.speed) := by
    split
    · have h2 : 0 ≤ speedIncrement * dt :=
        mul_nonneg (by norm_num [speedIncrement]) hdt
      linarith
    · exact hsp
  have hkey : (updateSpeedAndScore dt g).score =
      ⌊g.distanceTraveled +
        (if g.speed < maxSpeed then g.speed + speedIncrement * dt else g.speed) *
          dt * (1 / 100)⌋ := by
    unfold updateSpeedAndScore
    dsimp only
    repeat' split
    all_goals rfl
  rw [hkey, hscore]
  apply Int.floor_le_floor
  have h3 : 0 ≤ (if g.speed < maxSpeed then g.speed + speedIncrement * dt
      else g.speed) * dt * (1 / 100) :=
    mul_nonneg (mul_nonneg hs1 hdt) (by norm_num)
  linarith

theorem uss_fields (dt : ℚ) (g : Game) :
    ((g.difficultyLevel < ⌊(((updateSpeedAndScore dt g).score : ℚ)) / 40⌋ →
        (updateSpeedAndScore dt g).difficultyLevel =
          ⌊(((updateSpeedAndScore dt g).score : ℚ)) / 40⌋) ∧
      (⌊(((updateSpeedAndScore dt g).score : ℚ)) / 40⌋ ≤ g.difficultyLevel →
        (updateSpeedAndScore dt g).difficultyLevel = g.difficultyLevel)) ∧
    ((updateSpeedAndScore dt g).obstacleSpacing = g.obstacleSpacing ∨
      (updateSpeedAndScore dt g).obstacleSpacing =
        max minObstacleSpacing (g.obstacleSpacing - 5)) := by
  unfold updateSpeedAndScore
  dsimp only
  split <;> split <;>
    refine ⟨⟨fun hlt => ?_, fun hle => ?_⟩, ?_⟩ <;>
      first
        | rfl
        | (rename_i hd; exact absurd hd (not_lt.mpr hle))
        | (rename_i hd; exact absurd hlt hd)
        | (split
           · exact Or.inr rfl
           · exact Or.inl rfl)
        | exact Or.inl rfl

/-! ### Claim theorems -/

/-- Claim C9: the jump action is state-dependent and never an error: from
menu it starts a run, from gameover it restarts, while playing it jumps
(sets the jump velocity, clears grounded) exactly when grounded, and is a
silent no-op otherwise, in particular while airborne during play. -/
theorem handleJump_state_cases (g : Game) :
    (g.state = .menu → handleJump g = startGame g) ∧
    (g.state = .gameover → handleJump g = startGame g) ∧
    (g.state = .playing → g.player.grounded = true →
      handleJump g =
        { g with
            player :=
              { g.player with
                  velocity := jumpPower, jumping := true, grounded := false } }) ∧
    (g.state = .playing → g.player.grounded = false → handleJump g = g) := by
  refine ⟨fun h => ?_, fun h => ?_, fun h hg => ?_, fun h hg => ?_⟩
  · simp [handleJump, h]
  · simp [handleJump, h]
  · simp [handleJump, h, hg]
  · simp [handleJump, h, hg]

/-- Witness for C9: a concrete grounded playing state where the jump fires. -/
theorem handleJump_state_cases_witness :
    gC8.state = .playing ∧ gC8.player.grounded = true ∧
    handleJump gC8 =
      { gC8 with
          player :=
            { gC8.player with
                velocity := jumpPower, jumping := true, grounded := false } } :=
  ⟨by with_unfolding_all decide, by with_unfolding_all decide, (handleJump_state_cases gC8).2.2.1 (by with_unfolding_all decide) (by with_unfolding_all decide)⟩

/-- Claim C7: per tick the game-over event fires at most once: the
collision resolver counts exactly one death and enters gameover when some
active obstacle is classified lethal, leaves the state untouched when none
is, the classification outcome is invariant under any reordering of the
obstacle iteration, and a full playing step raises the death counter by at
most one. -/
theorem single_game_over_per_tick (dt : ℚ) (jsSin : ℚ → ℚ) (rnd : Rand)
    (g : Game) :
    (checkCollisions g).deaths ≤ g.deaths + 1 ∧
    ((∃ o ∈ g.obstacles, lethalHit g.player (playerBox g.player) o = true) →
      (checkCollisions g).deaths = g.deaths + 1 ∧
      (checkCollisions g).state = .gameover) ∧
    ((∀ o ∈ g.obstacles, lethalHit g.player (playerBox g.player) o = false) →
      checkCollisions g = g) ∧
    (∀ l : List Obstacle, g.obstacles.Perm l →
      g.obstacles.any (lethalHit g.player (playerBox g.player)) =
        l.any (lethalHit g.player (playerBox g.player))) ∧
    (update dt jsSin rnd g).deaths ≤ g.deaths + 1 := by
  refine ⟨checkCollisions_deaths_le g, ?_, ?_, ?_, update_deaths_le dt jsSin rnd g⟩
  · intro hex
    have hany : g.obstacles.any (lethalHit g.player (playerBox g.player)) = true :=
      List.any_eq_true.mpr hex
    unfold checkCollisions
    rw [hany]
    exact ⟨rfl, rfl⟩
  · intro hall
    have hany : g.obstacles.any (lethalHit g.player (playerBox g.player)) = false := by
      rw [List.any_eq_false]
      intro o ho
      simp [hall o ho]
    unfold checkCollisions
    rw [hany]
    rfl
  · intro l hperm
    rw [Bool.eq_iff_iff]
    simp only [List.any_eq_true]
    exact ⟨fun ⟨x, hx, hpx⟩ => ⟨x, hperm.mem_iff.mp hx, hpx⟩,
           fun ⟨x, hx, hpx⟩ => ⟨x, hperm.mem_iff.mpr hx, hpx⟩⟩

/-- Witness for C7: a player standing in a spike dies exactly once. -/
theorem single_game_over_per_tick_witness :
    (checkCollisions gC7).deaths = gC7.deaths + 1 ∧
    (checkCollisions gC7).state = .gameover :=
  (single_game_over_per_tick 16 sinZero rndZero gC7).2.1
    ⟨spikeC7, by with_unfolding_all decide, by with_unfolding_all decide⟩

/-- Counterexample for C8: a single playing step starting just below the
speed cap with a large elapsed-time sample ends strictly above maxSpeed;
the source adds speedIncrement·dt without clamping at the cap. -/
theorem speed_cap_overshoot_cex :
    gC8.state = .playing ∧ gC8.speed < maxSpeed ∧
    (update 1000 sinZero rndZero gC8).speed = 12.3 ∧
    maxSpeed < (update 1000 sinZero rndZero gC8).speed := by
  refine ⟨by with_unfolding_all decide, by with_unfolding_all decide, by with_unfolding_all decide, by with_unfolding_all decide⟩

/-- Claim C8 as amended: the speed grows at the fixed rate
speedIncrement per elapsed time unit while strictly below the cap and
freezes once at or above it, but a step can overshoot: the post-step bound
is max(previous speed, maxSpeed + speedIncrement·dt), not maxSpeed. -/
theorem speed_growth_bounded (dt : ℚ) (jsSin : ℚ → ℚ) (rnd : Rand) (g : Game)
    (hdt : 0 ≤ dt) :
    (update dt jsSin rnd g).speed ≤ max g.speed (maxSpeed + speedIncrement * dt) ∧
    (maxSpeed ≤ g.speed → (update dt jsSin rnd g).speed = g.speed) ∧
    (g.state = .playing → g.speed < maxSpeed →
      (update dt jsSin rnd g).speed = g.speed + speedIncrement * dt) := by
  by_cases hp : g.state = .playing
  · have hs : (updateSpeedAndScore dt g).speed =
        if g.speed < maxSpeed then g.speed + speedIncrement * dt else g.speed := by
      unfold updateSpeedAndScore
      dsimp only
      repeat' split
      all_goals rfl
    refine ⟨?_, fun hmax => ?_, fun _ hlt => ?_⟩
    · rw [update_speed_eq dt jsSin rnd g hp, hs]
      split
      · rename_i hlt
        have h2 : g.speed + speedIncrement * dt ≤ maxSpeed + speedIncrement * dt := by
          linarith
        exact le_max_of_le_right h2
      · exact le_max_left _ _
    · rw [update_speed_eq dt jsSin rnd g hp, hs, if_neg (not_lt.mpr hmax)]
    · rw [update_speed_eq dt jsSin rnd g hp, hs, if_pos hlt]
  · have hupd : update dt jsSin rnd g = g := by
      unfold update
      simp [hp]
    rw [hupd]
    exact ⟨le_max_left _ _, fun _ => rfl, fun hpl => absurd hpl hp⟩

/-- Witness for C8 (amended): the concrete overshoot state instantiates
each clause. -/
theorem speed_growth_bounded_witness :
    (update 1000 sinZero rndZero gC8).speed ≤
      max gC8.speed (maxSpeed + speedIncrement * 1000) ∧
    (gC8.state = .playing ∧ gC8.speed < maxSpeed ∧
      (update 1000 sinZero rndZero gC8).speed = gC8.speed + speedIncrement * 1000) :=
  ⟨(speed_growth_bounded 1000 sinZero rndZero gC8 (by with_unfolding_all decide)).1,
   by with_unfolding_all decide, by with_unfolding_all decide,
   (speed_growth_bounded 1000 sinZero rndZero gC8 (by with_unfolding_all decide)).2.2
     (by with_unfolding_all decide) (by with_unfolding_all decide)⟩

/-- Counterexample for C4: gravity and obstacle displacement are fixed
per-invocation amounts: one step with dt = 32 accumulates 0.8 onto the
airborne velocity and moves the obstacle one speed unit, while two steps
with dt = 16 accumulate 1.6 and two speed units, so a 2·dt step does not
equal two dt steps. -/
theorem physics_not_dt_scaled_cex :
    (updatePlayer 32 gC4).player.velocity = 0.8 ∧
    (updatePlayer 16 (updatePlayer 16 gC4)).player.velocity = 1.6 ∧
    (updatePlayer 32 gC4).player.velocity ≠
      (updatePlayer 16 (updatePlayer 16 gC4)).player.velocity ∧
    (updateObstacles 32 sinZero gC4).obstacles.map Obstacle.x = [396.5] ∧
    (updateObstacles 16 sinZero
        (updateObstacles 16 sinZero gC4)).obstacles.map Obstacle.x = [393] ∧
    (updateObstacles 32 sinZero gC4).obstacles.map Obstacle.x ≠
      (updateObstacles 16 sinZero
        (updateObstacles 16 sinZero gC4)).obstacles.map Obstacle.x := by
  refine ⟨by with_unfolding_all decide, by with_unfolding_all decide, by with_unfolding_all decide, by with_unfolding_all decide, by with_unfolding_all decide, by with_unfolding_all decide⟩

/-- Claim C4 as amended: the player physics and the obstacle displacement
are independent of the elapsed-time sample (fixed per-invocation amounts —
the simulation is frame-count dependent, not frame-rate independent); while
airborne one invocation adds exactly the gravity constant clamped at the
terminal speed; only the world-speed increment scales with dt. -/
theorem physics_fixed_per_tick (dt1 dt2 : ℚ) (jsSin : ℚ → ℚ) (g : Game) :
    (updatePlayer dt1 g).player = (updatePlayer dt2 g).player ∧
    (updateObstacles dt1 jsSin g).obstacles =
      (updateObstacles dt2 jsSin g).obstacles ∧
    (g.player.grounded = false →
      (integrate g).velocity = min (g.player.velocity + gravity) maxFallSpeed) ∧
    (g.speed < maxSpeed →
      (updateSpeedAndScore dt1 g).speed = g.speed + speedIncrement * dt1) := by
  refine ⟨rfl, rfl, fun hgr => ?_, fun hlt => ?_⟩
  · unfold integrate
    simp only [hgr, Bool.not_false, if_true]
    rcases le_or_lt (g.player.velocity + gravity) maxFallSpeed with h | h
    · rw [if_neg (not_lt.mpr h), min_eq_left h]
    · rw [if_pos h, min_eq_right (le_of_lt h)]
  · have hs : (updateSpeedAndScore dt1 g).speed =
        if g.speed < maxSpeed then g.speed + speedIncrement * dt1 else g.speed := by
      unfold updateSpeedAndScore
      dsimp only
      repeat' split
      all_goals rfl
    rw [hs, if_pos hlt]

/-- Witness for C4 (amended): the concrete airborne state instantiates the
conditional clauses. -/
theorem physics_fixed_per_tick_witness :
    gC4.player.grounded = false ∧
    (integrate gC4).velocity = min (gC4.player.velocity + gravity) maxFallSpeed ∧
    gC4.speed < maxSpeed ∧
    (updateSpeedAndScore 16 gC4).speed = gC4.speed + speedIncrement * 16 :=
  ⟨by with_unfolding_all decide,
   (physics_fixed_per_tick 16 32 sinZero gC4).2.2.1 (by with_unfolding_all decide),
   by with_unfolding_all decide,
   (physics_fixed_per_tick 16 32 sinZero gC4).2.2.2 (by with_unfolding_all decide)⟩

/-- Claim C10: while playing the score never decreases across a step
(it is the floor of the non-decreasing distance), and entering the playing
state through startGame resets the score to exactly 0. -/
theorem score_monotone_reset (dt : ℚ) (jsSin : ℚ → ℚ) (rnd : Rand) (g : Game)
    (hplay : g.state = .playing) (hdt : 0 ≤ dt) (hsp : 0 ≤ g.speed)
    (hscore : g.score = ⌊g.distanceTraveled⌋) :
    g.score ≤ (update dt jsSin rnd g).score ∧
    (startGame g).score = 0 ∧ (startGame g).state = .playing := by
  refine ⟨?_, rfl, rfl⟩
  rw [update_score_eq dt jsSin rnd g hplay]
  exact uss_score_mono dt g hdt hsp hscore

/-- Witness for C10: the base state instantiates the hypotheses. -/
theorem score_monotone_reset_witness :
    baseGame.state = .playing ∧
    (baseGame.score ≤ (update 16 sinZero rndZero baseGame).score ∧
      (startGame baseGame).score = 0 ∧ (startGame baseGame).state = .playing) :=
  ⟨by with_unfolding_all decide,
   score_monotone_reset 16 sinZero rndZero baseGame (by with_unfolding_all decide) (by with_unfolding_all decide)
     (by with_unfolding_all decide) (by with_unfolding_all decide)⟩

/-- Claim C6: while playing, after a step the difficulty tier equals
floor(score/40) and never decreases across ticks, the obstacle spacing
never increases and never drops below the configured minimum, and the set
of unlocked obstacle types is a monotone superset as the tier grows. -/
theorem difficulty_progression (dt : ℚ) (jsSin : ℚ → ℚ) (rnd : Rand) (g : Game)
    (hplay : g.state = .playing) (hdt : 0 ≤ dt) (hsp : 0 ≤ g.speed)
    (hscore : g.score = ⌊g.distanceTraveled⌋)
    (hlvl : g.difficultyLevel = ⌊(g.score : ℚ) / 40⌋)
    (hspace : minObstacleSpacing ≤ g.obstacleSpacing) :
    (update dt jsSin rnd g).difficultyLevel =
      ⌊(((update dt jsSin rnd g).score : ℚ)) / 40⌋ ∧
    g.difficultyLevel ≤ (update dt jsSin rnd g).difficultyLevel ∧
    (update dt jsSin rnd g).obstacleSpacing ≤ g.obstacleSpacing ∧
    minObstacleSpacing ≤ (update dt jsSin rnd g).obstacleSpacing ∧
    (∀ l1 l2 : ℤ, l1 ≤ l2 → availableTypes l1 ⊆ availableTypes l2) := by
  obtain ⟨⟨hpos, hneg⟩, hspdisj⟩ := uss_fields dt g
  have hm := uss_score_mono dt g hdt hsp hscore
  have hlvlmono : g.difficultyLevel ≤
      ⌊(((updateSpeedAndScore dt g).score : ℚ)) / 40⌋ := by
    rw [hlvl]
    apply Int.floor_le_floor
    gcongr
  rw [update_difficultyLevel_eq dt jsSin rnd g hplay,
      update_obstacleSpacing_eq dt jsSin rnd g hplay,
      update_score_eq dt jsSin rnd g hplay]
  refine ⟨?_, ?_, ?_, ?_, availableTypes_mono⟩
  · rcases lt_or_le g.difficultyLevel
      ⌊(((updateSpeedAndScore dt g).score : ℚ)) / 40⌋ with hlt | hle
    · exact hpos hlt
    · rw [hneg hle]
      omega
  · rcases lt_or_le g.difficultyLevel
      ⌊(((updateSpeedAndScore dt g).score : ℚ)) / 40⌋ with hlt | hle
    · rw [hpos hlt]
      exact hlvlmono
    · rw [hneg hle]
  · rcases hspdisj with h | h
    · rw [h]
    · rw [h]
      exact max_le hspace (by linarith)
  · rcases hspdisj with h | h
    · rw [h]
      exact hspace
    · rw [h]
      exact le_max_left _ _

/-- Witness for C6: the base state instantiates the hypotheses. -/
theorem difficulty_progression_witness :
    baseGame.state = .playing ∧
    ((update 16 sinZero rndZero baseGame).difficultyLevel =
        ⌊(((update 16 sinZero rndZero baseGame).score : ℚ)) / 40⌋ ∧
      baseGame.difficultyLevel ≤ (update 16 sinZero rndZero baseGame).difficultyLevel ∧
      (update 16 sinZero rndZero baseGame).obstacleSpacing ≤ baseGame.obstacleSpacing ∧
      minObstacleSpacing ≤ (update 16 sinZero rndZero baseGame).obstacleSpacing ∧
      (∀ l1 l2 : ℤ, l1 ≤ l2 → availableTypes l1 ⊆ availableTypes l2)) :=
  ⟨by with_unfolding_all decide,
   difficulty_progression 16 sinZero rndZero baseGame (by with_unfolding_all decide)
     (by with_unfolding_all decide) (by with_unfolding_all decide)
     (by with_unfolding_all decide) (by with_unfolding_all decide)
     (by with_unfolding_all decide)⟩

/-- Claim C3: on any tick entered with a consistent player record,
immediately after ground/platform resolution a grounded player has zero
vertical velocity and its y is pinned so the bottom edge sits exactly at
ground level or exactly on the top surface of an active platform recorded
in the back-reference. -/
theorem grounded_velocity_zero_and_pinned (dt : ℚ) (g : Game)
    (hcons : playerConsistent g)
    (hg : (updatePlayer dt g).player.grounded = true) :
    (updatePlayer dt g).player.velocity = 0 ∧
    ((updatePlayer dt g).player.y = g.groundY - g.player.size ∨
      ∃ o ∈ g.obstacles,
        (updatePlayer dt g).player.onPlatform = some o.id ∧
        (updatePlayer dt g).player.y = o.y - g.player.size) := by
  rw [updatePlayer_player] at hg ⊢
  cases hL : findLanding g (integrate g) with
  | some o =>
    have hstep : stepPlayer g =
        { integrate g with
            y := o.y - (integrate g).size, velocity := 0, grounded := true,
            jumping := false, onPlatform := some o.id } := by
      unfold stepPlayer
      rw [hL]
    rw [hstep]
    exact ⟨rfl, Or.inr ⟨o, findLanding_mem hL, rfl, rfl⟩⟩
  | none =>
    by_cases hgd : g.groundY - (integrate g).size ≤ (integrate g).y
    · have hstep : stepPlayer g =
          { integrate g with
              y := g.groundY - (integrate g).size, velocity := 0,
              grounded := true, jumping := false, onPlatform := none } := by
        unfold stepPlayer
        rw [hL, if_pos hgd]
      rw [hstep]
      exact ⟨rfl, Or.inl rfl⟩
    · have hstep : stepPlayer g = leaveCheck g (integrate g) := by
        unfold stepPlayer
        rw [hL, if_neg hgd]
      rw [hstep] at hg ⊢
      by_cases hgr : g.player.grounded = true
      · obtain ⟨hv0, hdisj⟩ := hcons hgr
        have hv1 : (integrate g).velocity = g.player.velocity :=
          integrate_velocity_of_grounded g hgr
        have hy1 : (integrate g).y = g.player.y := by
          rw [integrate_y, hv1, hv0, add_zero]
        cases hOP : g.player.onPlatform with
        | none =>
          rcases hdisj with hyg | ⟨hne, _⟩
          · exfalso
            apply hgd
            rw [hy1, hyg, integrate_size]
          · exact absurd hOP hne
        | some pid =>
          rcases hdisj with hyg | ⟨_, hall⟩
          · exfalso
            apply hgd
            rw [hy1, hyg, integrate_size]
          · cases hF : g.obstacles.find? (fun o => o.id == pid) with
            | none =>
              have hlc : leaveCheck g (integrate g) =
                  { integrate g with grounded := false, onPlatform := none } := by
                simp [leaveCheck, integrate_grounded, integrate_onPlatform, hgr,
                  hOP, hF]
              rw [hlc] at hg
              simp at hg
            | some platform =>
              have hid : platform.id = pid := by
                simpa using List.find?_some hF
              by_cases hclear :
                  (integrate g).x + (integrate g).size / 2 < platform.x - g.speed ∨
                  platform.x + platform.width <
                    (integrate g).x - (integrate g).size / 2
              · have hlc : leaveCheck g (integrate g) =
                    { integrate g with grounded := false, onPlatform := none } := by
                  simp [leaveCheck, integrate_grounded, integrate_onPlatform, hgr,
                    hOP, hF, hclear]
                rw [hlc] at hg
                simp at hg
              · have hlc : leaveCheck g (integrate g) = integrate g := by
                  simp [leaveCheck, integrate_grounded, integrate_onPlatform, hgr,
                    hOP, hF, hclear]
                rw [hlc]
                refine ⟨by rw [hv1, hv0],
                  Or.inr ⟨platform, List.mem_of_find?_eq_some hF, ?_, ?_⟩⟩
                · rw [integrate_onPlatform, hOP, hid]
                · rw [hy1]
                  exact hall platform (List.mem_of_find?_eq_some hF)
                    (by rw [hOP, hid])
      · have hlc : leaveCheck g (integrate g) = integrate g := by
          simp [leaveCheck, integrate_grounded, hgr]
        rw [hlc] at hg
        rw [integrate_grounded] at hg
        exact absurd hg hgr

/-- Witness for C3: the landing state gC1 satisfies the entry consistency
and lands this tick. -/
theorem grounded_velocity_zero_and_pinned_witness :
    playerConsistent gC1 ∧
    ((updatePlayer 0 gC1).player.velocity = 0 ∧
      ((updatePlayer 0 gC1).player.y = gC1.groundY - gC1.player.size ∨
        ∃ o ∈ gC1.obstacles,
          (updatePlayer 0 gC1).player.onPlatform = some o.id ∧
          (updatePlayer 0 gC1).player.y = o.y - gC1.player.size)) :=
  ⟨by with_unfolding_all decide,
   grounded_velocity_zero_and_pinned 0 gC1 (by with_unfolding_all decide)
     (by with_unfolding_all decide)⟩

/-- Counterexample for C1: in gC1 the integrated bottom edge (440) is below
the platform top plus the 15-unit tolerance (435), the previous-tick bottom
(439.2) is already below the top surface (420) so there is no valid
top-crossing, and velocity ≥ 0 with horizontal overlap — yet the tick
resolves as a landing (the forgiving band reaches platformBottom + 25) and
the resolver does not classify the overlap as lethal: the state stays
playing with no death. -/
theorem forgiving_band_lands_without_crossing_cex :
    0 ≤ (integrate gC1).velocity ∧
    (integrate gC1).y + (integrate gC1).size = 440 ∧
    platC1.y + 15 < 440 ∧
    platC1.y < (integrate gC1).y + (integrate gC1).size - (integrate gC1).velocity ∧
    platC1.x < (integrate gC1).x + (integrate gC1).size / 2 ∧
    (integrate gC1).x - (integrate gC1).size / 2 < platC1.x + platC1.width ∧
    (update 0 sinZero rndZero gC1).player.grounded = true ∧
    (update 0 sinZero rndZero gC1).player.onPlatform = some 0 ∧
    (update 0 sinZero rndZero gC1).state = .playing ∧
    (update 0 sinZero rndZero gC1).deaths = 0 := by
  with_unfolding_all decide

/-- Claim C1 as amended: for an isJumpable platform horizontally
overlapping the player while the integrated velocity is ≥ 0, a bottom edge
anywhere inside the forgiving band from platformTop − 5 down to
platformBottom + 25 resolves the tick as a landing on some eligible
platform even without a top-crossing: the player is snapped and grounded,
the back-reference is recorded, and the collision resolver does not
classify that platform's overlap as lethal. -/
theorem one_sided_platform_landing (dt : ℚ) (g : Game) (o : Obstacle)
    (ho : o ∈ g.obstacles) (hj : o.isJumpable = true)
    (hv : 0 ≤ (integrate g).velocity)
    (hh1 : o.x < (integrate g).x + (integrate g).size / 2)
    (hh2 : (integrate g).x - (integrate g).size / 2 < o.x + o.width)
    (hb1 : o.y - 5 ≤ (integrate g).y + (integrate g).size)
    (hb2 : (integrate g).y + (integrate g).size ≤ o.y + o.height + 25) :
    (updatePlayer dt g).player.grounded = true ∧
    (updatePlayer dt g).player.velocity = 0 ∧
    ∃ o2 ∈ g.obstacles, o2.isJumpable = true ∧
      (updatePlayer dt g).player.onPlatform = some o2.id ∧
      (updatePlayer dt g).player.y = o2.y - g.player.size ∧
      lethalHit (updatePlayer dt g).player
        (playerBox (updatePlayer dt g).player) o2 = false := by
  have hpred : (o.isJumpable && landingCond (integrate g) o) = true := by
    simp only [landingCond, Bool.and_eq_true, Bool.or_eq_true, decide_eq_true_eq]
    exact ⟨hj, ⟨⟨hh1, hh2⟩, Or.inl ⟨hb1, hb2⟩⟩, hv⟩
  have hism : (findLanding g (integrate g)).isSome := by
    unfold findLanding
    rw [if_pos hv]
    exact List.find?_isSome.mpr ⟨o, ho, hpred⟩
  obtain ⟨o2, hL⟩ := Option.isSome_iff_exists.mp hism
  obtain ⟨hj2, _, _⟩ := findLanding_cond hL
  have hstep : stepPlayer g =
      { integrate g with
          y := o2.y - (integrate g).size, velocity := 0, grounded := true,
          jumping := false, onPlatform := some o2.id } := by
    unfold stepPlayer
    rw [hL]
  rw [updatePlayer_player, hstep]
  refine ⟨rfl, rfl, o2, findLanding_mem hL, hj2, rfl, rfl, ?_⟩
  unfold lethalHit
  rw [hj2]
  simp

/-- Witness for C1 (amended): gC1 instantiates every hypothesis. -/
theorem one_sided_platform_landing_witness :
    platC1 ∈ gC1.obstacles ∧
    ((updatePlayer 0 gC1).player.grounded = true ∧
      (updatePlayer 0 gC1).player.velocity = 0 ∧
      ∃ o2 ∈ gC1.obstacles, o2.isJumpable = true ∧
        (updatePlayer 0 gC1).player.onPlatform = some o2.id ∧
        (updatePlayer 0 gC1).player.y = o2.y - gC1.player.size ∧
        lethalHit (updatePlayer 0 gC1).player
          (playerBox (updatePlayer 0 gC1).player) o2 = false) :=
  ⟨by with_unfolding_all decide,
   one_sided_platform_landing 0 gC1 platC1 (by with_unfolding_all decide)
     (by with_unfolding_all decide) (by with_unfolding_all decide)
     (by with_unfolding_all decide) (by with_unfolding_all decide)
     (by with_unfolding_all decide) (by with_unfolding_all decide)⟩

/-- Claim C2 (code bug): the generator's moving-platform case never sets
isJumpable, so the landing resolver skips moving platforms entirely and the
collision branch for type platform has no landing-on-top exception — a
player falling squarely onto a moving platform's top surface (bottom edge
within the 15-unit tolerance of the top, velocity ≥ 0, boxes overlapping,
exactly the geometry the spec calls safe) is killed: the step ends in
gameover with the death counter incremented, and the back-reference is
never recorded. -/
theorem moving_platform_overlap_fatal :
    ((generateObstacle none rndPlat gGen).obstacles.getLast?).map
      Obstacle.isJumpable = some false ∧
    ((generateObstacle none rndPlat gGen).obstacles.getLast?).map
      Obstacle.otype = some .platform ∧
    (updatePlayer 0 (updateSpeedAndScore 0 gC2)).player.grounded = false ∧
    (updatePlayer 0 (updateSpeedAndScore 0 gC2)).player.onPlatform = none ∧
    isColliding
      (playerBox (updateObstacles 0 sinZero
        (updatePlayer 0 (updateSpeedAndScore 0 gC2))).player)
      ((updateObstacles 0 sinZero
        (updatePlayer 0 (updateSpeedAndScore 0 gC2))).obstacles.headD platC2) =
      true ∧
    (updateObstacles 0 sinZero
        (updatePlayer 0 (updateSpeedAndScore 0 gC2))).player.y +
      (updateObstacles 0 sinZero
        (updatePlayer 0 (updateSpeedAndScore 0 gC2))).player.size ≤
      ((updateObstacles 0 sinZero
        (updatePlayer 0 (updateSpeedAndScore 0 gC2))).obstacles.headD platC2).y +
        15 ∧
    0 ≤ (updateObstacles 0 sinZero
        (updatePlayer 0 (updateSpeedAndScore 0 gC2))).player.velocity ∧
    (update 0 sinZero rndZero gC2).state = .gameover ∧
    (update 0 sinZero rndZero gC2).deaths = gC2.deaths + 1 := by
  with_unfolding_all decide

/-- Counterexample for C5: after jumping off gC5's platform and two playing
steps, the back-reference still names obstacle 0, that obstacle is still in
the active set, and its horizontal span lies strictly left of the player's
left edge — the reference was not cleared although the player no longer
overlaps it. -/
theorem onPlatform_stale_after_jump_cex :
    gC5b.player.onPlatform = some 0 ∧
    gC5b.obstacles.any (fun o => o.id == 0) = true ∧
    gC5b.obstacles.all
      (fun o => o.id != 0 ||
        decide (o.x + o.width < gC5b.player.x - gC5b.player.size / 2)) = true ∧
    gC5b.player.grounded = false ∧
    gC5b.state = .playing := by
  with_unfolding_all decide

/-- Claim C5 as amended: while the player ends the resolution grounded, the
back-reference always names an obstacle still in the active set whose
horizontal span the player overlaps (up to the one-speed left margin of the
leave check); while airborne — in particular after jumping off — the
reference persists unchanged and may go stale until the next landing. -/
theorem onPlatform_valid_while_grounded (dt : ℚ) (g : Game) (hs : 0 ≤ g.speed)
    (pid : ℕ)
    (hg : (updatePlayer dt g).player.grounded = true)
    (hp : (updatePlayer dt g).player.onPlatform = some pid) :
    ∃ o ∈ g.obstacles, o.id = pid ∧
      overlapWithMargin (updatePlayer dt g).player g.speed o := by
  rw [updatePlayer_player] at hg hp ⊢
  cases hL : findLanding g (integrate g) with
  | some o =>
    have hstep : stepPlayer g =
        { integrate g with
            y := o.y - (integrate g).size, velocity := 0, grounded := true,
            jumping := false, onPlatform := some o.id } := by
      unfold stepPlayer
      rw [hL]
    rw [hstep] at hp ⊢
    have hid : o.id = pid := by simpa using hp
    obtain ⟨_, hcond2, _⟩ := findLanding_cond hL
    simp only [landingCond, Bool.and_eq_true, Bool.or_eq_true,
      decide_eq_true_eq] at hcond2
    obtain ⟨⟨hh1, hh2⟩, _⟩ := hcond2
    refine ⟨o, findLanding_mem hL, hid, ?_, ?_⟩
    · intro hcontra
      dsimp only at hcontra
      linarith
    · intro hcontra
      dsimp only at hcontra
      linarith
  | none =>
    by_cases hgd : g.groundY - (integrate g).size ≤ (integrate g).y
    · have hstep : stepPlayer g =
          { integrate g with
              y := g.groundY - (integrate g).size, velocity := 0,
              grounded := true, jumping := false, onPlatform := none } := by
        unfold stepPlayer
        rw [hL, if_pos hgd]
      rw [hstep] at hp
      simp at hp
    · have hstep : stepPlayer g = leaveCheck g (integrate g) := by
        unfold stepPlayer
        rw [hL, if_neg hgd]
      rw [hstep] at hg hp ⊢
      by_cases hgr : g.player.grounded = true
      · cases hOP : g.player.onPlatform with
        | none =>
          have hlc : leaveCheck g (integrate g) = integrate g := by
            simp [leaveCheck, integrate_grounded, integrate_onPlatform, hgr, hOP]
          rw [hlc, integrate_onPlatform, hOP] at hp
          simp at hp
        | some pid2 =>
          cases hF : g.obstacles.find? (fun o => o.id == pid2) with
          | none =>
            have hlc : leaveCheck g (integrate g) =
                { integrate g with grounded := false, onPlatform := none } := by
              simp [leaveCheck, integrate_grounded, integrate_onPlatform, hgr,
                hOP, hF]
            rw [hlc] at hg
            simp at hg
          | some platform =>
            have hid : platform.id = pid2 := by
              simpa using List.find?_some hF
            by_cases hclear :
                (integrate g).x + (integrate g).size / 2 < platform.x - g.speed ∨
                platform.x + platform.width <
                  (integrate g).x - (integrate g).size / 2
            · have hlc : leaveCheck g (integrate g) =
                  { integrate g with grounded := false, onPlatform := none } := by
                simp [leaveCheck, integrate_grounded, integrate_onPlatform, hgr,
                  hOP, hF, hclear]
              rw [hlc] at hg
              simp at hg
            · have hlc : leaveCheck g (integrate g) = integrate g := by
                simp [leaveCheck, integrate_grounded, integrate_onPlatform, hgr,
                  hOP, hF, hclear]
              rw [hlc] at hp ⊢
              have hpid : pid2 = pid := by
                rw [integrate_onPlatform, hOP] at hp
                simpa using hp
              rw [not_or] at hclear
              exact ⟨platform, List.mem_of_find?_eq_some hF, by rw [hid, hpid],
                hclear.1, hclear.2⟩
      · have hlc : leaveCheck g (integrate g) = integrate g := by
          simp [leaveCheck, integrate_grounded, hgr]
        rw [hlc, integrate_grounded] at hg
        exact absurd hg hgr

/-- Witness for C5 (amended): gC1's landing tick keeps a valid grounded
back-reference. -/
theorem onPlatform_valid_while_grounded_witness :
    0 ≤ gC1.speed ∧
    ∃ o ∈ gC1.obstacles, o.id = 0 ∧
      overlapWithMargin (updatePlayer 0 gC1).player gC1.speed o :=
  ⟨by with_unfolding_all decide,
   onPlatform_valid_while_grounded 0 gC1 (by with_unfolding_all decide) 0
     (by with_unfolding_all decide) (by with_unfolding_all decide)⟩

end BeanieDash
